import Mathlib

/-!
Verification of the silhouette-mask rendering pipeline of the
`ericjooportfolio` repository: mask brightness / inside-test primitives,
the directional trail compositor, the occupancy grid, the finite-event
envelope, particle integration and the video-playlist source switching.

Pixel data is modelled as flat RGBA byte arrays (`ℕ → ℕ`, index
`(y*w + x) * 4`), colour arithmetic over `ℚ` where the JavaScript code
only adds and multiplies decimal constants (exact), and over `ℝ` where it
uses `Math.pow` / `Math.sqrt` / `Math.hypot`.
-/

namespace Portfolio

/-- JavaScript `x | 0` (ToInt32) on an in-range number truncates toward
zero; coordinates are modelled before the 2^32 wrap, which no caller in
the repository can reach. -/
def truncJS (q : ℚ) : ℤ :=
  if 0 ≤ q then ⌊q⌋ else -⌊-q⌋

/-- A mask buffer: flat RGBA byte data, as produced by
`ctx.getImageData(...).data`. -/
def Buf := ℕ → ℕ

/-- `CONFIG.VIDEO.SIL_BRIGHTNESS_THRESHOLD` (config.js). -/
def SIL_BRIGHTNESS_THRESHOLD : ℚ := 190

/-- Flat RGBA index `(yi * w + xi) << 2` of a truncated coordinate. -/
def idx (w : ℕ) (xi yi : ℤ) : ℕ := (yi.toNat * w + xi.toNat) * 4

/-- `brightnessAt(maskData, w, h, x, y)` from ascii.js (videoflock part):
255 for a missing mask, out-of-bounds truncated coordinates, or a
near-transparent pixel (alpha < 8); otherwise the Rec.709 luma
`0.2126·R + 0.7152·G + 0.0722·B`. -/
def brightnessAt (maskData : Option Buf) (w h : ℕ) (x y : ℚ) : ℚ :=
  match maskData with
  | none => 255
  | some m =>
    if truncJS x < 0 ∨ truncJS y < 0 ∨ (w : ℤ) ≤ truncJS x ∨ (h : ℤ) ≤ truncJS y then 255
    else if m (idx w (truncJS x) (truncJS y) + 3) < 8 then 255
    else (2126 / 10000 : ℚ) * m (idx w (truncJS x) (truncJS y)) +
      (7152 / 10000 : ℚ) * m (idx w (truncJS x) (truncJS y) + 1) +
      (722 / 10000 : ℚ) * m (idx w (truncJS x) (truncJS y) + 2)

/-- `isInside` from ascii.js, generalized over the threshold the code
reads from process-wide configuration. -/
def isInsideThr (thr : ℚ) (maskData : Option Buf) (w h : ℕ) (x y : ℚ) : Bool :=
  brightnessAt maskData w h x y < thr

/-- `isInside(maskData, w, h, x, y)` from ascii.js:
`brightnessAt(...) < CONFIG.VIDEO.SIL_BRIGHTNESS_THRESHOLD`. -/
def isInside (maskData : Option Buf) (w h : ℕ) (x y : ℚ) : Bool :=
  isInsideThr SIL_BRIGHTNESS_THRESHOLD maskData w h x y

namespace Sketch

/-- `SIL_BRIGHTNESS_THRESHOLD` local to sketch.js. -/
def threshold : ℚ := 170

/-- `isSilhouetteAt(px, py)` from sketch.js: `false` when `maskData` is
null, out of bounds, or alpha < 8; otherwise luma < 170. -/
def isSilhouetteAt (maskData : Option Buf) (w h : ℕ) (x y : ℚ) : Bool :=
  match maskData with
  | none => false
  | some m =>
    if truncJS x < 0 ∨ truncJS y < 0 ∨ (w : ℤ) ≤ truncJS x ∨ (h : ℤ) ≤ truncJS y then false
    else if m (idx w (truncJS x) (truncJS y) + 3) < 8 then false
    else decide ((2126 / 10000 : ℚ) * m (idx w (truncJS x) (truncJS y)) +
      (7152 / 10000 : ℚ) * m (idx w (truncJS x) (truncJS y) + 1) +
      (722 / 10000 : ℚ) * m (idx w (truncJS x) (truncJS y) + 2) < threshold)

end Sketch

namespace PoetrySilhouetteEffect

/-- `PoetrySilhouetteEffect.brightnessAt(px, py, p)` from app_global.js:
identical shape to the ascii.js helper (255 defaults). -/
def brightnessAt (maskData : Option Buf) (w h : ℕ) (x y : ℚ) : ℚ :=
  Portfolio.brightnessAt maskData w h x y

/-- `PoetrySilhouetteEffect.isSilhouetteAt(px, py, p)` from
app_global.js.  When the mask is not ready it deliberately returns
`true` ("show EVERYTHING so user sees immediate output"). -/
def isSilhouetteAt (maskData : Option Buf) (w h : ℕ) (x y : ℚ) : Bool :=
  match maskData with
  | none => true
  | some m =>
    decide (brightnessAt (some m) w h x y < SIL_BRIGHTNESS_THRESHOLD)

end PoetrySilhouetteEffect

/-- A 1×1 buffer holding one opaque black pixel. -/
def blackBuf : Buf := fun i => if i % 4 = 3 then 255 else 0

/-- A buffer in which every byte (so every channel) is 255: opaque white. -/
def whiteBuf : Buf := fun _ => 255

namespace VideoThresholdEffect

/-- `_smoothstep(x)` from the video-threshold effect (part_000):
`x <= 0 ? 0 : x >= 1 ? 1 : x*x*(3 - 2*x)`. -/
def smoothstep (x : ℚ) : ℚ :=
  if x ≤ 0 then 0 else if 1 ≤ x then 1 else x * x * (3 - 2 * x)

/-- `_rippleRadius(now, rp)` from part_000, with the instance fields
`GROW_TIME`, `HOLD_TIME`, `DECAY_TIME` and the ripple record
`{t0, radius}` passed explicitly: grow via smoothstep to the peak
radius, hold, decay via smoothstep, then `-1` (finished). -/
def rippleRadius (growTime holdTime decayTime t0 radius now : ℚ) : ℚ :=
  let age := max 0 (now - t0)
  if age < growTime then radius * smoothstep (age / growTime)
  else if age < growTime + holdTime then radius
  else
    let d := age - (growTime + holdTime)
    if d < decayTime then radius * (1 - smoothstep (d / decayTime))
    else -1

end VideoThresholdEffect

/-! ## Occupancy grid (playlist.js, image-drip part)

The shared module-level array `occ` (rows × cols of entity ids or null,
indexed `occ[y][x]`) is modelled as a total function `ℤ → ℤ → Option ℕ`
with the row count carried separately, matching the clamped row loops of
the source exactly. -/

/-- A grid assignment of cells to owning entity ids (`occ[y][x]`). -/
def Occ := ℤ → ℤ → Option ℕ

/-- The state `resetOccupancy` produces: every cell null. -/
def emptyOcc : Occ := fun _ _ => none

/-- Integer interval `[lo, hi)` as a list, for the source's `for` loops. -/
def cellsBetween (lo hi : ℤ) : List ℤ :=
  (List.range (hi - lo).toNat).map fun k : ℕ => lo + (k : ℤ)

/-- `canPlaceRect(cols, rows, c, r, w, h)` from playlist.js: rejects a
rectangle that overflows the columns, clamps its row span to
`[max(0,r), min(rows, r+h))`, and requires every cell of the clamped
span to be null. -/
def canPlaceRect (occ : Occ) (cols rows c r w h : ℤ) : Bool :=
  if c < 0 ∨ cols < c + w then false
  else
    (cellsBetween (max 0 r) (min rows (r + h))).all fun y =>
      (cellsBetween c (c + w)).all fun x => (occ y x).isNone

/-- `placeRect(id, c, r, w, h)` from playlist.js: no-op on an empty grid
(`occ.length` falsy), otherwise writes `id` into every cell of the
row-clamped rectangle. -/
def placeRect (occ : Occ) (rows : ℤ) (id : ℕ) (c r w h : ℤ) : Occ :=
  if rows = 0 then occ
  else fun y x =>
    if max 0 r ≤ y ∧ y < min rows (r + h) ∧ c ≤ x ∧ x < c + w then some id
    else occ y x

/-- `freeRectById(id, c, r, w, h)` from playlist.js: clears a cell of the
row-clamped rectangle only when that cell still holds `id`. -/
def freeRectById (occ : Occ) (rows : ℤ) (id : ℕ) (c r w h : ℤ) : Occ :=
  if rows = 0 then occ
  else fun y x =>
    if (max 0 r ≤ y ∧ y < min rows (r + h) ∧ c ≤ x ∧ x < c + w) ∧ occ y x = some id
    then none
    else occ y x

/-- One call against the shared occupancy grid. -/
inductive OccOp where
  | place (id : ℕ) (c r w h : ℤ)
  | free (id : ℕ) (c r w h : ℤ)

/-- Apply one `place`/`free` call. -/
def applyOccOp (rows : ℤ) (occ : Occ) : OccOp → Occ
  | .place id c r w h => placeRect occ rows id c r w h
  | .free id c r w h => freeRectById occ rows id c r w h

/-- Apply a call sequence left to right. -/
def applyOccOps (rows : ℤ) (occ : Occ) (ops : List OccOp) : Occ :=
  ops.foldl (applyOccOp rows) occ

/-- The caller discipline stated by the spec: every `place` is preceded
by a successful `canPlaceRect` on the same rectangle and current grid. -/
def validOccSeq (cols rows : ℤ) : Occ → List OccOp → Bool
  | _, [] => true
  | occ, op :: rest =>
    (match op with
     | .place _ c r w h => canPlaceRect occ cols rows c r w h
     | .free _ _ _ _ _ => true) &&
    validOccSeq cols rows (applyOccOp rows occ op) rest

/-! ## VideoPlaylist source switching (playlist.js, stable-handle version)

The DOM `<video>` elements are modelled as numeric handles; the set of
nodes attached to `document.body` as a list of handles. -/

/-- `this._mode` of VideoPlaylist. -/
inductive PMode where
  | playlist
  | file
  | webcam
deriving DecidableEq

/-- The observable VideoPlaylist state relevant to source switching. -/
structure PlaylistState where
  videoEls : List ℕ
  activeIdx : ℕ
  vidEl : Option ℕ
  mode : PMode
  body : List ℕ
  nextId : ℕ
  loaded : Bool
deriving DecidableEq

namespace PlaylistState

/-- `createHiddenVideo(...)`: a fresh `<video>` node appended to
`document.body`. -/
def createHiddenVideo (s : PlaylistState) : ℕ × PlaylistState :=
  (s.nextId, { s with nextId := s.nextId + 1, body := s.body ++ [s.nextId] })

/-- Fallback arm of `_ensureStableNode`: first demo element if it is
still in the document, else a freshly created node. -/
def ensureFallback (s : PlaylistState) : ℕ × PlaylistState :=
  match s.videoEls.head? with
  | some v0 =>
    if v0 ∈ s.body then (v0, { s with vidEl := some v0 })
    else
      let p := createHiddenVideo s
      (p.1, { p.2 with vidEl := some p.1 })
  | none =>
    let p := createHiddenVideo s
    (p.1, { p.2 with vidEl := some p.1 })

/-- `_ensureStableNode()` from playlist.js: prefer the current `vidEl`
when it is still attached to the document. -/
def ensureStableNode (s : PlaylistState) : ℕ × PlaylistState :=
  match s.vidEl with
  | some v => if v ∈ s.body then (v, s) else ensureFallback s
  | none => ensureFallback s

/-- The success path of `useVideoFile(file)` (okType true, load
resolved): reuse the stable node, enter file mode, keep the same
reference in `vidEl`. -/
def useVideoFileOk (s : PlaylistState) : PlaylistState :=
  let p := ensureStableNode s
  { p.2 with mode := .file, vidEl := some p.1, loaded := true }

/-- The success path of `useWebcam()` (stream granted, load resolved):
reuse the stable node, enter webcam mode. -/
def useWebcamOk (s : PlaylistState) : PlaylistState :=
  let p := ensureStableNode s
  { p.2 with mode := .webcam, vidEl := some p.1, loaded := true }

/-- `next()` from playlist.js: ignored outside playlist mode or with no
demo elements, otherwise advances `activeIdx` cyclically and reassigns
`vidEl` to the demo element at the new index. -/
def next (s : PlaylistState) : PlaylistState :=
  if s.mode ≠ .playlist then s
  else if s.videoEls.length = 0 then s
  else
    let i := (s.activeIdx + 1) % s.videoEls.length
    { s with activeIdx := i, vidEl := s.videoEls.get? i, loaded := true }

end PlaylistState

/-! ## AsciiLayer trail compositor (renderer.js / part_001)

Buffers hold premultiplied RGBA; drawing an image with
`globalAlpha = g` onto a cleared canvas scales the premultiplied colour
by `g`, and canvas `source-over` is `out = src + (1 − src.a)·dst` in
premultiplied form.  The definitions below give the per-pixel action of
`fadeDirectional`; the advection offset `strength·pxPerMs·deltaMs` is
zero in every zero-wind statement proved here, which makes the
`image(tmp, dx, dy)` draws pointwise. -/

/-- A premultiplied RGBA pixel of a p5 graphics buffer. -/
structure Pixel where
  r : ℝ
  g : ℝ
  b : ℝ
  a : ℝ

/-- An opaque RGB colour (the effect background). -/
structure RGB where
  r : ℝ
  g : ℝ
  b : ℝ

/-- Drawing a buffer with `globalAlpha = k` onto a cleared canvas. -/
def Pixel.scale (k : ℝ) (px : Pixel) : Pixel :=
  ⟨k * px.r, k * px.g, k * px.b, k * px.a⟩

/-- Canvas `source-over` compositing, premultiplied. -/
def Pixel.over (src dst : Pixel) : Pixel :=
  ⟨src.r + (1 - src.a) * dst.r, src.g + (1 - src.a) * dst.g,
    src.b + (1 - src.a) * dst.b, src.a + (1 - src.a) * dst.a⟩

/-- A fully transparent pixel (a cleared buffer). -/
def Pixel.clear : Pixel := ⟨0, 0, 0, 0⟩

/-- The pixel of an opaque fill with colour `bg` and alpha `k`
(`fill(bg.r, bg.g, bg.b, 255·k)`), premultiplied. -/
def rectPixel (bg : RGB) (k : ℝ) : Pixel := ⟨k * bg.r, k * bg.g, k * bg.b, k⟩

/-- `_autoClearMs` of AsciiLayer. -/
def autoClearMs : ℝ := 3500

/-- `decayPerFrame` of the AsciiLayer trail state. -/
def decayPerFrame : ℝ := 0.965

/-- `maxTaps` of the AsciiLayer trail state. -/
def maxTaps : ℕ := 8

/-- Lines 135–136 of part_001: the per-ms decay constant
`Math.pow(t.decayPerFrame, 1/16.7)` raised to the elapsed ms. -/
noncomputable def decayAlpha (dpf dt : ℝ) : ℝ :=
  (dpf ^ ((1 : ℝ) / 16.7)) ^ dt

/-- Line 144 of part_001:
`Math.max(1, Math.min(t.maxTaps, Math.floor(1 + t.strength*(t.maxTaps-1))))`. -/
noncomputable def tapCount (strength : ℝ) (m : ℕ) : ℕ :=
  max 1 (min m (Int.toNat ⌊1 + strength * ((m : ℝ) - 1)⌋))

/-- Net factor the `taps` shift+decay passes apply to the accumulation
buffer: each pass draws with `globalAlpha = decayAlpha^(1/taps)`. -/
noncomputable def tickDecayFactor (dpf strength dt : ℝ) (m : ℕ) : ℝ :=
  (decayAlpha dpf dt ^ ((1 : ℝ) / (tapCount strength m : ℝ))) ^ (tapCount strength m)

/-- Per-pixel action of `fadeDirectional(deltaMs)` from part_001 at a
given trail strength: multi-tap decay of the accumulation pixel, fresh
frame stamped at full alpha, the strength-gated smear pass, then the
idle auto-clear background fill with alpha `min(1, deltaMs/autoClearMs)`
when `strength ≤ 0.001`.  Exact whenever the advection offset is zero
(every claim below instantiates `strength = 0`). -/
noncomputable def fadeDirectional (bg : RGB) (strength dt : ℝ) (acc frm : Pixel) : Pixel :=
  let acc1 := Pixel.scale (tickDecayFactor decayPerFrame strength dt maxTaps) acc
  let stamped := Pixel.over frm acc1
  let smeared :=
    if 0.001 < strength then Pixel.over (Pixel.scale (0.35 * strength) frm) stamped
    else stamped
  if strength ≤ 0.001 ∧ 0 < autoClearMs then
    Pixel.over (rectPixel bg (min 1 (dt / autoClearMs))) smeared
  else smeared

/-- `blitTo`: the accumulation buffer drawn over the opaque background
the host painted first; the presented colour at the pixel. -/
def presentedOver (bg : RGB) (px : Pixel) : RGB :=
  ⟨px.r + (1 - px.a) * bg.r, px.g + (1 - px.a) * bg.g, px.b + (1 - px.a) * bg.b⟩

/-! ## Agent integration (ascii.js, videoflock part) -/

/-- A 2D vector of JavaScript numbers. -/
structure Vec2 where
  x : ℝ
  y : ℝ

/-- The mutable fields of an ascii.js `Agent` that `integrate` touches. -/
structure Agent where
  pos : Vec2
  vel : Vec2
  acc : Vec2
  prevAcc : Vec2
  maxSpeed : ℝ

namespace Agent

/-- The low-pass filtered acceleration
`acc*smooth + prevAcc*(1-smooth)` computed at the top of `integrate`. -/
def filteredAcc (smooth : ℝ) (ag : Agent) : Vec2 :=
  ⟨ag.acc.x * smooth + ag.prevAcc.x * (1 - smooth),
    ag.acc.y * smooth + ag.prevAcc.y * (1 - smooth)⟩

/-- `Agent.integrate(dt, smooth)` from ascii.js: low-pass filter the
acceleration, add it to the velocity (not scaled by `dt`), clamp the
speed (`Math.hypot(...) || 1`) to `maxSpeed`, advance the position by
`vel * dt`, store the filtered acceleration in `prevAcc`, reset `acc`. -/
noncomputable def integrate (dt smooth : ℝ) (ag : Agent) : Agent :=
  let accF := filteredAcc smooth ag
  let v1 : Vec2 := ⟨ag.vel.x + accF.x, ag.vel.y + accF.y⟩
  let hyp := Real.sqrt (v1.x ^ 2 + v1.y ^ 2)
  let sp := if hyp = 0 then 1 else hyp
  let v2 : Vec2 :=
    if ag.maxSpeed < sp then ⟨v1.x * (ag.maxSpeed / sp), v1.y * (ag.maxSpeed / sp)⟩
    else v1
  { ag with
    pos := ⟨ag.pos.x + v2.x * dt, ag.pos.y + v2.y * dt⟩
    vel := v2
    prevAcc := accF
    acc := ⟨0, 0⟩ }

/-- Follows the spec's words, for comparison with `integrate`: "apply a
single Euler step (`v += a·dt; v clamped to maxSpeed; x += v·dt`)", with
the same low-pass filter and accumulator reset around it. -/
noncomputable def integrateSpecStep (dt smooth : ℝ) (ag : Agent) : Agent :=
  let accF := filteredAcc smooth ag
  let v1 : Vec2 := ⟨ag.vel.x + accF.x * dt, ag.vel.y + accF.y * dt⟩
  let hyp := Real.sqrt (v1.x ^ 2 + v1.y ^ 2)
  let sp := if hyp = 0 then 1 else hyp
  let v2 : Vec2 :=
    if ag.maxSpeed < sp then ⟨v1.x * (ag.maxSpeed / sp), v1.y * (ag.maxSpeed / sp)⟩
    else v1
  { ag with
    pos := ⟨ag.pos.x + v2.x * dt, ag.pos.y + v2.y * dt⟩
    vel := v2
    prevAcc := accF
    acc := ⟨0, 0⟩ }

end Agent

/-- A concrete agent: at the origin, at rest, with unit acceleration
accumulated along x (already in `prevAcc` so the low-pass filter is the
identity), generous speed limit. -/
def agC : Agent := ⟨⟨0, 0⟩, ⟨0, 0⟩, ⟨1, 0⟩, ⟨1, 0⟩, 10⟩

end Portfolio

namespace Portfolio

/-! ## Shared lemmas -/

/-- Membership in the loop range `[lo, hi)`. -/
theorem mem_cellsBetween {lo hi z : ℤ} : z ∈ cellsBetween lo hi ↔ lo ≤ z ∧ z < hi := by
  unfold cellsBetween
  rw [List.mem_map]
  constructor
  · rintro ⟨k, hk, rfl⟩
    rw [List.mem_range] at hk
    omega
  · intro hz
    refine ⟨(z - lo).toNat, ?_, by omega⟩
    rw [List.mem_range]
    omega

/-- The floor of one half. -/
theorem floor_half : ⌊(1 / 2 : ℚ)⌋ = 0 := by
  rw [Int.floor_eq_zero_iff, Set.mem_Ico]
  norm_num

/-- Truncation of 0. -/
theorem truncJS_zero : truncJS 0 = 0 := by
  rw [truncJS, if_pos le_rfl]
  simp

/-- Truncation of 2. -/
theorem truncJS_two : truncJS 2 = 2 := by
  rw [truncJS, if_pos (by norm_num : (0 : ℚ) ≤ 2)]
  simp

/-- JavaScript truncation sends −1/2 toward zero, to 0. -/
theorem truncJS_neg_half : truncJS (-(1 / 2)) = 0 := by
  rw [truncJS, if_neg (by norm_num), neg_neg, floor_half, neg_zero]

/-- The black 1×1 buffer has luma 0 at the (clamped) origin sample. -/
theorem brightness_black_neg : brightnessAt (some blackBuf) 1 1 (-(1 / 2)) 0 = 0 := by
  simp only [brightnessAt, truncJS_neg_half, truncJS_zero, idx, blackBuf, Int.toNat_zero]
  norm_num

/-- The black 1×1 buffer has luma 0 at the origin. -/
theorem brightness_black_origin : brightnessAt (some blackBuf) 1 1 0 0 = 0 := by
  simp only [brightnessAt, truncJS_zero, idx, blackBuf, Int.toNat_zero]
  norm_num

/-- The white 1×1 buffer has luma exactly 255 at the origin
(the Rec.709 coefficients sum to 1). -/
theorem brightness_white_origin : brightnessAt (some whiteBuf) 1 1 0 0 = 255 := by
  simp only [brightnessAt, truncJS_zero, idx, whiteBuf, Int.toNat_zero]
  norm_num

/-! ## C1 -/

/-- C1 counterexample: with no mask buffer available (`maskData` null),
`PoetrySilhouetteEffect.isSilhouetteAt` reports **true** at (0,0) on a
1920×1080 surface, so this inside-test does not report false everywhere
as the claim states. -/
theorem C1_counterexample :
    PoetrySilhouetteEffect.isSilhouetteAt none 1920 1080 0 0 = true := rfl

/-- C1 amended: when `maskData` is null, the sketch.js and ascii.js
inside-tests report false at every coordinate (brightness defaults to
255), but `PoetrySilhouetteEffect.isSilhouetteAt` deliberately reports
true at every coordinate ("show EVERYTHING so user sees immediate
output"), so that effect draws all its marks rather than zero. -/
theorem C1_null_mask (w h : ℕ) (x y : ℚ) :
    Sketch.isSilhouetteAt none w h x y = false
    ∧ brightnessAt none w h x y = 255
    ∧ isInside none w h x y = false
    ∧ PoetrySilhouetteEffect.isSilhouetteAt none w h x y = true := by
  refine ⟨rfl, rfl, ?_, rfl⟩
  simp only [isInside, isInsideThr, brightnessAt, SIL_BRIGHTNESS_THRESHOLD,
    decide_eq_false_iff_not]
  norm_num

/-! ## C8 -/

/-- C8 counterexample: the coordinate (−1/2, 0) lies outside
`[0,1)×[0,1)`, yet JavaScript `x|0` truncates −1/2 toward zero to 0, so
on a 1×1 opaque black buffer `brightnessAt` returns 0 (not 255) and
`isInside` returns true (not false). -/
theorem C8_counterexample :
    (-(1 / 2) : ℚ) < 0
    ∧ brightnessAt (some blackBuf) 1 1 (-(1 / 2)) 0 = 0
    ∧ isInside (some blackBuf) 1 1 (-(1 / 2)) 0 = true := by
  refine ⟨by norm_num, brightness_black_neg, ?_⟩
  simp only [isInside, isInsideThr, SIL_BRIGHTNESS_THRESHOLD, brightness_black_neg,
    decide_eq_true_eq]
  norm_num

/-- C8 amended: for every coordinate whose toward-zero truncation lands
outside `[0,w)×[0,h)` (all integer out-of-bounds coordinates, but not
fractional ones in (−1,0), which truncate to 0), and for every in-range
pixel whose alpha byte is below 8, `brightnessAt` returns 255 and
`isInside` returns false. -/
theorem C8_default_brightness (m : Buf) (w h : ℕ) (x y : ℚ)
    (hout : truncJS x < 0 ∨ truncJS y < 0 ∨ (w : ℤ) ≤ truncJS x ∨ (h : ℤ) ≤ truncJS y ∨
      m (idx w (truncJS x) (truncJS y) + 3) < 8) :
    brightnessAt (some m) w h x y = 255 ∧ isInside (some m) w h x y = false := by
  have hb : brightnessAt (some m) w h x y = 255 := by
    simp only [brightnessAt]
    by_cases hbnd : truncJS x < 0 ∨ truncJS y < 0 ∨ (w : ℤ) ≤ truncJS x ∨ (h : ℤ) ≤ truncJS y
    · rw [if_pos hbnd]
    · have ha : m (idx w (truncJS x) (truncJS y) + 3) < 8 := by tauto
      rw [if_neg hbnd, if_pos ha]
  refine ⟨hb, ?_⟩
  simp only [isInside, isInsideThr, hb, SIL_BRIGHTNESS_THRESHOLD, decide_eq_false_iff_not]
  norm_num

/-- C8 witness: the coordinate (2,0) on a 1×1 white buffer truncates to
x = 2 ≥ w = 1, and the defaults apply. -/
theorem C8_default_brightness_witness :
    brightnessAt (some whiteBuf) 1 1 2 0 = 255 ∧ isInside (some whiteBuf) 1 1 2 0 = false :=
  C8_default_brightness whiteBuf 1 1 2 0
    (Or.inr (Or.inr (Or.inl (by rw [truncJS_two]; norm_num))))

/-! ## C9 -/

/-- C9: the silhouette threshold boundary is exclusive — a pixel whose
luma equals the threshold exactly is not inside (strict `<`); at
threshold 190 a fully black pixel (luma 0) is inside and a fully white
pixel (luma 255) is outside. -/
theorem C9_exclusive_boundary :
    (∀ (thr : ℚ) (m : Option Buf) (w h : ℕ) (x y : ℚ),
      brightnessAt m w h x y = thr → isInsideThr thr m w h x y = false)
    ∧ isInside (some blackBuf) 1 1 0 0 = true
    ∧ isInside (some whiteBuf) 1 1 0 0 = false := by
  refine ⟨?_, ?_, ?_⟩
  · intro thr m w h x y hl
    simp [isInsideThr, hl]
  · simp only [isInside, isInsideThr, SIL_BRIGHTNESS_THRESHOLD, brightness_black_origin,
      decide_eq_true_eq]
    norm_num
  · simp only [isInside, isInsideThr, SIL_BRIGHTNESS_THRESHOLD, brightness_white_origin,
      decide_eq_false_iff_not]
    norm_num

/-- C9 witness: the white 1×1 buffer has luma exactly 255, and with
threshold 255 the inside-test still reports false. -/
theorem C9_exclusive_boundary_witness :
    isInsideThr 255 (some whiteBuf) 1 1 0 0 = false :=
  C9_exclusive_boundary.1 255 (some whiteBuf) 1 1 0 0 brightness_white_origin

/-! ## C5 -/

/-- C5 counterexample: on an empty 2×2 grid, the 1×2 rectangle at
column 0, row 1 extends past the bottom edge (row span 1..3 with only 2
rows), yet `canPlaceRect` returns true — row overflow is clamped, not
rejected. -/
theorem C5_counterexample :
    (2 : ℤ) < 1 + 2 ∧ canPlaceRect emptyOcc 2 2 0 1 1 2 = true := by
  exact ⟨by norm_num, by decide⟩

/-- C5 amended: `canPlaceRect` returns true iff the rectangle's columns
lie within bounds (`0 ≤ c` and `c + w ≤ cols`) and every cell of the
**row-clamped** span `[max(0,r), min(rows, r+h)) × [c, c+w)` is
unclaimed; a rectangle extending past the top or bottom edge is clamped
rather than rejected, so only column overflow forces a false result. -/
theorem C5_canPlace_characterization (occ : Occ) (cols rows c r w h : ℤ) :
    canPlaceRect occ cols rows c r w h = true ↔
      (0 ≤ c ∧ c + w ≤ cols ∧
        ∀ y x : ℤ, max 0 r ≤ y → y < min rows (r + h) → c ≤ x → x < c + w →
          occ y x = none) := by
  unfold canPlaceRect
  by_cases hcw : c < 0 ∨ cols < c + w
  · rw [if_pos hcw]
    simp only [Bool.false_eq_true, false_iff]
    rintro ⟨h1, h2, -⟩
    omega
  · rw [if_neg hcw]
    push_neg at hcw
    simp only [List.all_eq_true, mem_cellsBetween, and_imp, Option.isNone_iff_eq_none]
    constructor
    · intro hall
      exact ⟨by omega, by omega, fun y x hy1 hy2 hx1 hx2 => hall y hy1 hy2 x hx1 hx2⟩
    · rintro ⟨-, -, hall⟩
      intro y hy1 hy2 x hx1 hx2
      exact hall y x hy1 hy2 hx1 hx2

/-- C5 witness: a fully in-bounds 2×2 rectangle on an empty 3×3 grid is
placeable. -/
theorem C5_canPlace_characterization_witness :
    canPlaceRect emptyOcc 3 3 0 0 2 2 = true :=
  (C5_canPlace_characterization emptyOcc 3 3 0 0 2 2).mpr
    ⟨by norm_num, by norm_num, fun y x hy1 hy2 hx1 hx2 => rfl⟩

/-! ## C4 -/

/-- C4: starting from the empty grid, after any `place`/`free` sequence
respecting the `canPlaceRect` precondition, a cell holds at most one
owner — the claimed cell sets of two distinct ids are disjoint (the grid
stores one owner per cell, so this holds invariantly) — and
`freeRectById` leaves every cell not owned by the freed id unchanged. -/
theorem C4_occupancy_disjoint (cols rows : ℤ) (ops : List OccOp)
    (_hval : validOccSeq cols rows emptyOcc ops = true)
    (i j : ℕ) (hij : i ≠ j) (y x : ℤ) :
    ¬(applyOccOps rows emptyOcc ops y x = some i ∧
      applyOccOps rows emptyOcc ops y x = some j)
    ∧ ∀ (g : Occ) (id : ℕ) (c r w h : ℤ),
        g y x ≠ some id → freeRectById g rows id c r w h y x = g y x := by
  constructor
  · rintro ⟨h1, h2⟩
    rw [h1] at h2
    exact hij (Option.some.inj h2)
  · intro g id c r w h hne
    unfold freeRectById
    by_cases h0 : rows = 0
    · rw [if_pos h0]
    · rw [if_neg h0]
      by_cases hc : (max 0 r ≤ y ∧ y < min rows (r + h) ∧ c ≤ x ∧ x < c + w) ∧ g y x = some id
      · exact absurd hc.2 hne
      · rw [if_neg hc]

/-- C4 witness: one valid placement of id 1 on a 2×2 grid; ids 1 and 2
never share the origin cell, and frees of unowned cells are no-ops. -/
theorem C4_occupancy_disjoint_witness :
    ¬(applyOccOps 2 emptyOcc [OccOp.place 1 0 0 1 1] 0 0 = some 1 ∧
      applyOccOps 2 emptyOcc [OccOp.place 1 0 0 1 1] 0 0 = some 2)
    ∧ ∀ (g : Occ) (id : ℕ) (c r w h : ℤ),
        g 0 0 ≠ some id → freeRectById g 2 id c r w h 0 0 = g 0 0 :=
  C4_occupancy_disjoint 2 2 [OccOp.place 1 0 0 1 1] (by decide) 1 2 (by decide) 0 0

/-! ## C6 -/

/-- Smoothstep vanishes at 0. -/
theorem smoothstep_zero : VideoThresholdEffect.smoothstep 0 = 0 := by
  unfold VideoThresholdEffect.smoothstep
  rw [if_pos le_rfl]

/-- C6: for positive grow and decay durations and nonnegative hold, the
ripple envelope is 0 at the event start, equals the peak at the end of
grow and at the end of hold, is negative (finished) once decay has
elapsed, rises as `peak · smoothstep((t−t0)/grow)` throughout the grow
window, and falls as `peak · (1 − smoothstep((t−(t0+grow+hold))/decay))`
throughout the decay window. -/
theorem C6_envelope (g h d t0 P : ℚ) (hg : 0 < g) (hh : 0 ≤ h) (hd : 0 < d) :
    VideoThresholdEffect.rippleRadius g h d t0 P t0 = 0
    ∧ VideoThresholdEffect.rippleRadius g h d t0 P (t0 + g) = P
    ∧ VideoThresholdEffect.rippleRadius g h d t0 P (t0 + g + h) = P
    ∧ VideoThresholdEffect.rippleRadius g h d t0 P (t0 + g + h + d) < 0
    ∧ (∀ t, t0 ≤ t → t < t0 + g →
        VideoThresholdEffect.rippleRadius g h d t0 P t =
          P * VideoThresholdEffect.smoothstep ((t - t0) / g))
    ∧ (∀ t, t0 + g + h ≤ t → t < t0 + g + h + d →
        VideoThresholdEffect.rippleRadius g h d t0 P t =
          P * (1 - VideoThresholdEffect.smoothstep ((t - (t0 + g + h)) / d))) := by
  refine ⟨?_, ?_, ?_, ?_, ?_, ?_⟩
  · simp only [VideoThresholdEffect.rippleRadius]
    rw [sub_self, max_self, if_pos hg, zero_div, smoothstep_zero, mul_zero]
  · simp only [VideoThresholdEffect.rippleRadius]
    rw [show t0 + g - t0 = g by ring, max_eq_right hg.le, if_neg (lt_irrefl g)]
    rcases hh.lt_or_eq with hpos | hzero
    · rw [if_pos (by linarith)]
    · rw [← hzero, add_zero, if_neg (lt_irrefl g), sub_self, if_pos hd, zero_div,
        smoothstep_zero]
      ring
  · simp only [VideoThresholdEffect.rippleRadius]
    rw [show t0 + g + h - t0 = g + h by ring, max_eq_right (by linarith),
      if_neg (by linarith), if_neg (lt_irrefl (g + h)), sub_self, if_pos hd, zero_div,
      smoothstep_zero]
    ring
  · simp only [VideoThresholdEffect.rippleRadius]
    rw [show t0 + g + h + d - t0 = g + h + d by ring, max_eq_right (by linarith),
      if_neg (by linarith), if_neg (by linarith),
      show g + h + d - (g + h) = d by ring, if_neg (lt_irrefl d)]
    norm_num
  · intro t ht1 ht2
    simp only [VideoThresholdEffect.rippleRadius]
    rw [max_eq_right (by linarith), if_pos (by linarith)]
  · intro t ht1 ht2
    simp only [VideoThresholdEffect.rippleRadius]
    rw [max_eq_right (by linarith), if_neg (by linarith), if_neg (by linarith),
      if_pos (by linarith), show t - t0 - (g + h) = t - (t0 + g + h) by ring]

/-- C6 witness: the envelope with grow 10, hold 5, decay 8, start 0 and
peak 3, evaluated at its phase boundaries. -/
theorem C6_envelope_witness :
    VideoThresholdEffect.rippleRadius 10 5 8 0 3 0 = 0
    ∧ VideoThresholdEffect.rippleRadius 10 5 8 0 3 (0 + 10) = 3
    ∧ VideoThresholdEffect.rippleRadius 10 5 8 0 3 (0 + 10 + 5) = 3
    ∧ VideoThresholdEffect.rippleRadius 10 5 8 0 3 (0 + 10 + 5 + 8) < 0
    ∧ (∀ t, 0 ≤ t → t < 0 + 10 →
        VideoThresholdEffect.rippleRadius 10 5 8 0 3 t =
          3 * VideoThresholdEffect.smoothstep ((t - 0) / 10))
    ∧ (∀ t, 0 + 10 + 5 ≤ t → t < 0 + 10 + 5 + 8 →
        VideoThresholdEffect.rippleRadius 10 5 8 0 3 t =
          3 * (1 - VideoThresholdEffect.smoothstep ((t - (0 + 10 + 5)) / 8))) :=
  C6_envelope 10 5 8 0 3 (by norm_num) (by norm_num) (by norm_num)

/-! ## C10 -/

/-- C10: a successful switch to an uploaded file or to the webcam keeps
the active frame-source handle `vidEl` identical to the handle held
before the switch (when one was held and still attached to the
document), while demo-playlist end-of-clip advancement moves
`activeIdx` to `(activeIdx+1) mod length` and reassigns `vidEl` to the
playlist entry at the new index. -/
theorem C10_handle_stability :
    (∀ (s : PlaylistState) (v : ℕ), s.vidEl = some v → v ∈ s.body →
      (PlaylistState.useVideoFileOk s).vidEl = some v ∧
      (PlaylistState.useWebcamOk s).vidEl = some v)
    ∧ (∀ s : PlaylistState, s.mode = PMode.playlist → s.videoEls ≠ [] →
      (PlaylistState.next s).activeIdx = (s.activeIdx + 1) % s.videoEls.length ∧
      (PlaylistState.next s).vidEl =
        s.videoEls.get? ((s.activeIdx + 1) % s.videoEls.length)) := by
  constructor
  · intro s v hv hbody
    have hstable : PlaylistState.ensureStableNode s = (v, s) := by
      unfold PlaylistState.ensureStableNode
      rw [hv]
      simp [hbody]
    constructor
    · simp [PlaylistState.useVideoFileOk, hstable]
    · simp [PlaylistState.useWebcamOk, hstable]
  · intro s hmode hne
    have hlen : s.videoEls.length ≠ 0 := by
      simpa [List.length_eq_zero] using hne
    unfold PlaylistState.next
    rw [hmode]
    simp [hlen]

/-- C10 witness: a playlist state holding handle 5 of two demo elements;
file and webcam switches keep handle 5, advancement moves to index 1. -/
theorem C10_handle_stability_witness :
    ((PlaylistState.useVideoFileOk ⟨[5, 9], 0, some 5, .playlist, [5, 9], 10, true⟩).vidEl
        = some 5
      ∧ (PlaylistState.useWebcamOk ⟨[5, 9], 0, some 5, .playlist, [5, 9], 10, true⟩).vidEl
        = some 5)
    ∧ ((PlaylistState.next ⟨[5, 9], 0, some 5, .playlist, [5, 9], 10, true⟩).activeIdx
        = (0 + 1) % List.length [5, 9]
      ∧ (PlaylistState.next ⟨[5, 9], 0, some 5, .playlist, [5, 9], 10, true⟩).vidEl
        = List.get? [5, 9] ((0 + 1) % List.length [5, 9])) :=
  ⟨C10_handle_stability.1 ⟨[5, 9], 0, some 5, .playlist, [5, 9], 10, true⟩ 5 rfl
      (by decide),
    C10_handle_stability.2 ⟨[5, 9], 0, some 5, .playlist, [5, 9], 10, true⟩ rfl
      (by decide)⟩

/-! ## C7 -/

/-- C7 counterexample: with `dt = 2`, unit filtered acceleration along x
and a generous speed limit, the code's integration step gives velocity
(1,0) and position x = 2, while the spec's `v += a·dt` step would give
velocity (2,0) and position x = 4 — the velocity update is not scaled by
`dt`. -/
theorem C7_counterexample :
    (Agent.integrate 2 0.72 agC).pos.x = 2
    ∧ (Agent.integrateSpecStep 2 0.72 agC).pos.x = 4
    ∧ Agent.integrate 2 0.72 agC ≠ Agent.integrateSpecStep 2 0.72 agC := by
  have hs1 : Real.sqrt ((0 + (1 * 0.72 + 1 * (1 - 0.72))) ^ 2 +
      (0 + (0 * 0.72 + 0 * (1 - 0.72))) ^ 2) = 1 := by
    rw [show ((0 + (1 * 0.72 + 1 * (1 - 0.72))) ^ 2 +
      (0 + (0 * 0.72 + 0 * (1 - 0.72))) ^ 2 : ℝ) = 1 by norm_num]
    exact Real.sqrt_one
  have hs2 : Real.sqrt ((0 + (1 * 0.72 + 1 * (1 - 0.72)) * 2) ^ 2 +
      (0 + (0 * 0.72 + 0 * (1 - 0.72)) * 2) ^ 2) = 2 := by
    rw [show ((0 + (1 * 0.72 + 1 * (1 - 0.72)) * 2) ^ 2 +
      (0 + (0 * 0.72 + 0 * (1 - 0.72)) * 2) ^ 2 : ℝ) = 2 ^ 2 by norm_num]
    exact Real.sqrt_sq (by norm_num)
  have h1 : (Agent.integrate 2 0.72 agC).pos.x = 2 := by
    simp only [Agent.integrate, Agent.filteredAcc, agC, hs1]
    norm_num
  have h2 : (Agent.integrateSpecStep 2 0.72 agC).pos.x = 4 := by
    simp only [Agent.integrateSpecStep, Agent.filteredAcc, agC, hs2]
    norm_num
  refine ⟨h1, h2, fun he => ?_⟩
  have : (2 : ℝ) = 4 := by rw [← h1, ← h2, he]
  norm_num at this

/-- C7 amended: each integration tick low-pass filters the acceleration,
adds it to the velocity **unscaled** (the resulting velocity does not
depend on `dt` at all), clamps the speed to `maxSpeed`, advances the
position by `vel·dt`, stores the filtered acceleration and resets the
accumulator. -/
theorem C7_integrate_step (ag : Agent) (smooth dt dtA dtB : ℝ) :
    (Agent.integrate dtA smooth ag).vel = (Agent.integrate dtB smooth ag).vel
    ∧ (Agent.integrate dt smooth ag).pos.x =
        ag.pos.x + (Agent.integrate dt smooth ag).vel.x * dt
    ∧ (Agent.integrate dt smooth ag).pos.y =
        ag.pos.y + (Agent.integrate dt smooth ag).vel.y * dt
    ∧ (Agent.integrate dt smooth ag).acc = ⟨0, 0⟩
    ∧ (Agent.integrate dt smooth ag).prevAcc = Agent.filteredAcc smooth ag :=
  ⟨rfl, rfl, rfl, rfl, rfl⟩

/-! ## Compositor lemmas shared by C2 and C3 -/

/-- At strength 0 the tap count is 1 (`floor(1 + 0·7) = 1`). -/
theorem tapCount_zero : tapCount 0 maxTaps = 1 := by
  unfold tapCount maxTaps
  norm_num

/-- At strength 0 the multi-tap passes apply exactly the per-tick decay
factor `decayAlpha`. -/
theorem tickDecayFactor_zero (dpf dt : ℝ) :
    tickDecayFactor dpf 0 dt maxTaps = decayAlpha dpf dt := by
  unfold tickDecayFactor
  rw [tapCount_zero]
  rw [Nat.cast_one, div_one, Real.rpow_one, pow_one]

/-- The decay factor is strictly positive for the configured base. -/
theorem decayAlpha_pos (dt : ℝ) : 0 < decayAlpha decayPerFrame dt := by
  unfold decayAlpha decayPerFrame
  positivity

/-- Closed form of a zero-strength compositor tick: pure decay of the
accumulation pixel, fresh-frame stamp, then the auto-clear background
fill with fraction `min(1, dt/autoClearMs)`. -/
theorem fadeDirectional_zero (bg : RGB) (dt : ℝ) (acc frm : Pixel) :
    fadeDirectional bg 0 dt acc frm =
      Pixel.over (rectPixel bg (min 1 (dt / autoClearMs)))
        (Pixel.over frm (Pixel.scale (decayAlpha decayPerFrame dt) acc)) := by
  simp only [fadeDirectional, tickDecayFactor_zero]
  rw [if_neg (by norm_num : ¬(0.001 : ℝ) < 0),
    if_pos (⟨by norm_num, by norm_num [autoClearMs]⟩ : (0 : ℝ) ≤ 0.001 ∧ 0 < autoClearMs)]

/-! ## C3 -/

/-- C3: the zero-strength decay factor is time-proportional — two
consecutive 16.7 ms compositor ticks apply exactly the factor of one
33.4 ms tick, because the per-ms constant `decayPerFrame^(1/16.7)` is
raised to the elapsed ms each tick. -/
theorem C3_decay_time_proportional :
    tickDecayFactor decayPerFrame 0 16.7 maxTaps *
        tickDecayFactor decayPerFrame 0 16.7 maxTaps
      = tickDecayFactor decayPerFrame 0 33.4 maxTaps := by
  rw [tickDecayFactor_zero, tickDecayFactor_zero]
  unfold decayAlpha
  have hb : (0 : ℝ) < decayPerFrame ^ ((1 : ℝ) / 16.7) := by
    unfold decayPerFrame
    positivity
  rw [← Real.rpow_add hb]
  norm_num

/-! ## C2 -/

/-- C2 counterexample: two zero-strength ticks of 1750 ms each sum to
exactly `autoClearMs = 3500`, but each tick only blends the background
in with fraction 1/2, so an initially opaque white accumulation pixel
still contributes `decay²/4 > 0` and the presented colour over a black
background is not the background. -/
theorem C2_counterexample :
    (1750 : ℝ) + 1750 = autoClearMs
    ∧ presentedOver ⟨0, 0, 0⟩
        (fadeDirectional ⟨0, 0, 0⟩ 0 1750
          (fadeDirectional ⟨0, 0, 0⟩ 0 1750 ⟨1, 1, 1, 1⟩ Pixel.clear) Pixel.clear)
      ≠ ⟨0, 0, 0⟩ := by
  refine ⟨by norm_num [autoClearMs], fun he => ?_⟩
  have hDpos : (0 : ℝ) < decayAlpha decayPerFrame 1750 := decayAlpha_pos 1750
  have hmin : min (1 : ℝ) (1750 / autoClearMs) = 1 / 2 := by
    rw [show (1750 : ℝ) / autoClearMs = 1 / 2 by norm_num [autoClearMs]]
    exact min_eq_right (by norm_num)
  rw [fadeDirectional_zero, fadeDirectional_zero, hmin] at he
  simp only [Pixel.over, Pixel.scale, Pixel.clear, rectPixel, presentedOver,
    RGB.mk.injEq] at he
  obtain ⟨h1, -, -⟩ := he
  ring_nf at h1
  nlinarith [hDpos, sq_nonneg (decayAlpha decayPerFrame 1750)]

/-- C2 amended: the presented buffer equals the background exactly when
the `autoClearMs` of zero-strength time elapses within a **single**
compositor tick (the clear fraction `min(1, dt/autoClearMs)` reaches 1);
across several smaller ticks summing to `autoClearMs` the buffer only
approaches the background geometrically. -/
theorem C2_autoclear_single_tick (bg : RGB) (dt : ℝ) (acc frm : Pixel)
    (hdt : autoClearMs ≤ dt) :
    presentedOver bg (fadeDirectional bg 0 dt acc frm) = bg := by
  rw [fadeDirectional_zero]
  have hpos : (0 : ℝ) < autoClearMs := by norm_num [autoClearMs]
  have hk : min (1 : ℝ) (dt / autoClearMs) = 1 :=
    min_eq_left ((le_div_iff₀ hpos).mpr (by rw [one_mul]; exact hdt))
  rw [hk]
  simp [Pixel.over, rectPixel, presentedOver]

/-- C2 witness: a single 3500 ms zero-strength tick clears an opaque
white accumulation pixel to the black background exactly. -/
theorem C2_autoclear_single_tick_witness :
    presentedOver ⟨0, 0, 0⟩ (fadeDirectional ⟨0, 0, 0⟩ 0 3500 ⟨1, 1, 1, 1⟩ Pixel.clear)
      = ⟨0, 0, 0⟩ :=
  C2_autoclear_single_tick ⟨0, 0, 0⟩ 3500 ⟨1, 1, 1, 1⟩ Pixel.clear
    (by norm_num [autoClearMs])

end Portfolio
